import Mathlib

/-!
# Verification of the pi-node gate access-control edge runtime

Shallow embedding of the gate-node runtime (`src/gate-node/`):
the decision engine and gate controller (`core/gate_control.py`),
the DeepSORT-lite tracker (`vision/tracker.py`), the local face
database (`storage/face_db.py`) and the sync round
(`threads/sync.py`), together with theorems checking the
natural-language specification against this code.

Modelling conventions:
* Python floats are modelled as exact rationals (`ℚ`); only order
  comparisons and field arithmetic of the source matter here.
* `numpy` vectors are `List ℚ`.  The L2 norm of a vector is not a
  rational, so wherever the source computes `np.linalg.norm(v)` the
  embedding takes the norm as an extra argument `n`, and theorems that
  depend on its value constrain it by its defining property
  `0 ≤ n ∧ n * n = l2normSq v`.
* Mutation is explicit state passing; a Python method that mutates
  `self` and returns `r` becomes a Lean function returning
  `State × r`.
* `threading.Timer` scheduling is modelled by the deadline the timer
  was armed with: `close_timer : Option ℚ` is `some d` when a timer
  armed to fire at absolute time `d` is pending.
-/

/-- Python `str.upper()` on ASCII strings, as used by
`DecisionEngine.make_decision` (`core/gate_control.py`). -/
def pyUpper (s : String) : String := String.mk (s.data.map Char.toUpper)

/-- The `GateDecision` enum of `core/gate_control.py`. -/
inductive GateDecision where
  | AUTHORIZED
  | UNKNOWN
  | WANTED
deriving DecidableEq, Repr

/-- The two decision thresholds held by `DecisionEngine.__init__`. -/
structure DecisionEngine where
  confidence_threshold : ℚ
  wanted_confidence_threshold : ℚ
deriving DecidableEq, Repr

/-- Embeds `DecisionEngine.make_decision` (`core/gate_control.py` lines
305-348): no match → UNKNOWN; uppercased status WANTED → WANTED iff
confidence ≥ wanted threshold; uppercased status AUTHORIZED →
AUTHORIZED iff confidence ≥ auth threshold; anything else UNKNOWN. -/
def make_decision (eng : DecisionEngine) (match_found : Bool)
    (confidence : ℚ) (status : String) : GateDecision :=
  if !match_found then GateDecision.UNKNOWN
  else if pyUpper status = "WANTED" then
    if eng.wanted_confidence_threshold ≤ confidence then GateDecision.WANTED
    else GateDecision.UNKNOWN
  else if pyUpper status = "AUTHORIZED" then
    if eng.confidence_threshold ≤ confidence then GateDecision.AUTHORIZED
    else GateDecision.UNKNOWN
  else GateDecision.UNKNOWN

/-- The `_stats` dict of `GateController.__init__`. -/
structure GateStats where
  total_opens : ℕ
  authorized_opens : ℕ
  wanted_opens : ℕ
  rejected_unknown : ℕ
deriving DecidableEq, Repr

/-- State of a `GateController` (`core/gate_control.py`).
`relay_on` is the commanded level of the relay output line
(`_set_relay` only drives the GPIO pin when `gpio_enabled`, so
`relay_on` only changes under that flag, mirroring the source). -/
structure GateControllerState where
  gpio_enabled : Bool
  active_low : Bool
  open_duration : ℚ
  cooldown : ℚ
  is_open : Bool
  last_open_time : ℚ
  close_timer : Option ℚ
  relay_on : Bool
  stats : GateStats
deriving DecidableEq, Repr

/-- Embeds `GateController._set_relay`: drives the relay line only when GPIO
is enabled (otherwise simulation mode: log only). -/
def setRelay (g : GateControllerState) (open_state : Bool) : GateControllerState :=
  if g.gpio_enabled then { g with relay_on := open_state } else g

/-- The stats bookkeeping at the top of `GateController.open_gate`:
`total_opens` increments for any truthy decision; `authorized_opens`
when `decision.value == "AUTHORIZED"`, `wanted_opens` when
`decision.value == "WANTED"` (the comparison `decision == GateAction.OPEN`
is always false for a `GateDecision` argument, which is what
`_recognize_track` passes). -/
def openGateStats (st : GateStats) (decision : Option GateDecision) : GateStats :=
  match decision with
  | none => st
  | some d =>
      let st := { st with total_opens := st.total_opens + 1 }
      match d with
      | GateDecision.AUTHORIZED => { st with authorized_opens := st.authorized_opens + 1 }
      | GateDecision.WANTED => { st with wanted_opens := st.wanted_opens + 1 }
      | GateDecision.UNKNOWN => st

/-- Embeds `GateController.open_gate` (`core/gate_control.py` lines 131-183)
at absolute time `now`.  Updates stats, always cancels any pending
close timer, then: if already open, re-arms the close timer
`open_duration` from now (extend) without touching the relay; if
closed, drives the relay on, marks open, arms the close timer.
Returns the updated state and the Python return value (always True). -/
def open_gate (g : GateControllerState) (decision : Option GateDecision)
    (now : ℚ) : GateControllerState × Bool :=
  let g := { g with stats := openGateStats g.stats decision }
  let g := { g with close_timer := none }
  if g.is_open then
    ({ g with close_timer := some (now + g.open_duration),
              last_open_time := now }, true)
  else
    let g := setRelay g true
    ({ g with is_open := true,
              last_open_time := now,
              close_timer := some (now + g.open_duration) }, true)

/-- Embeds `GateController.close_gate`: cancel timer, relay off, closed. -/
def close_gate (g : GateControllerState) : GateControllerState :=
  let g := { g with close_timer := none }
  let g := setRelay g false
  { g with is_open := false }

/-- Embeds `GateController.reject`: increments the rejection counter only. -/
def gateReject (g : GateControllerState) : GateControllerState :=
  { g with stats := { g.stats with rejected_unknown := g.stats.rejected_unknown + 1 } }

/-- Vector of rationals modelling a numpy float array. -/
abbrev Vec := List ℚ

/-- Elementwise sum of two vectors (`numpy` broadcasting add on
equal-length arrays). -/
def vecAdd (a b : Vec) : Vec := List.zipWith (· + ·) a b

/-- Scalar multiple of a vector. -/
def vecScale (c : ℚ) (v : Vec) : Vec := v.map (fun x => c * x)

/-- Elementwise sum of a nonempty list of vectors. -/
def vecSum : List Vec → Vec
  | [] => []
  | v :: vs => vs.foldl vecAdd v

/-- Embeds `np.mean(vs, axis=0)`: elementwise mean. -/
def vecMean (vs : List Vec) : Vec :=
  vecScale (1 / (vs.length : ℚ)) (vecSum vs)

/-- Embeds `np.dot` of two vectors. -/
def vecDot (a b : Vec) : ℚ := (List.zipWith (· * ·) a b).sum

/-- Squared L2 norm `Σ vᵢ²` of a vector; `np.linalg.norm v` is its
nonnegative square root. -/
def l2normSq (v : Vec) : ℚ := (v.map (fun x => x * x)).sum

/-- Append to a `deque(maxlen=5)`: push right, drop from the left when
capacity is exceeded. -/
def dequeAppend5 (h : List Vec) (e : Vec) : List Vec :=
  let h := h ++ [e]
  if 5 < h.length then h.drop (h.length - 5) else h

/-- The `TrackPhase` enum of `vision/tracker.py`. -/
inductive TrackPhase where
  | TENTATIVE
  | CONFIRMED
  | RECOGNIZED
deriving DecidableEq, Repr

/-- Bounding box `[x1, y1, x2, y2]`. -/
structure BBox where
  x1 : ℚ
  y1 : ℚ
  x2 : ℚ
  y2 : ℚ
deriving DecidableEq, Repr

/-- The `Track` dataclass of `vision/tracker.py` (timestamps
`created_at` / `recognized_at` carried as rationals). -/
structure Track where
  track_id : ℕ
  bbox : BBox
  score : ℚ
  landmarks : Option (List ℚ)
  phase : TrackPhase
  hits : ℕ
  age : ℕ
  time_since_update : ℕ
  embedding : Option Vec
  embedding_history : List Vec
  recognized : Bool
  recognition_attempts : ℕ
  face_id : Option String
  user_id : Option String
  name : Option String
  status : Option String
  confidence : ℚ
  created_at : ℚ
  recognized_at : Option ℚ
deriving DecidableEq, Repr

/-- Embeds `Track.mark_recognized` at time `now`: sets the recognized flag,
moves the phase to RECOGNIZED and records the identity tuple. -/
def markRecognized (t : Track) (face_id user_id name : Option String)
    (status : String) (confidence : ℚ) (now : ℚ) : Track :=
  { t with recognized := true,
           phase := TrackPhase.RECOGNIZED,
           recognized_at := some now,
           face_id := face_id,
           user_id := user_id,
           name := name,
           status := some status,
           confidence := confidence }

/-- The `TrackerStatistics` dataclass of `vision/tracker.py`. -/
structure TrackerStatistics where
  tracks_created : ℕ
  tracks_confirmed : ℕ
  tracks_recognized : ℕ
  authorized_count : ℕ
  wanted_count : ℕ
  unknown_count : ℕ
  active_tracks : ℕ
deriving DecidableEq, Repr

/-- Mutable state of a `DeepSORTLiteTracker`: the track list, the next
track id and the statistics (the constructor parameters
`iou_threshold`, `max_age`, `min_hits`, … are passed explicitly to the
functions that read them). -/
structure TrackerState where
  tracks : List Track
  next_id : ℕ
  stats : TrackerStatistics
deriving DecidableEq, Repr

/-- Embeds `DeepSORTLiteTracker.get_track`: first track with the given id. -/
def getTrack (st : TrackerState) (track_id : ℕ) : Option Track :=
  st.tracks.find? (fun t => t.track_id = track_id)

/-- Replace the first element satisfying `p` by `f` of it (in-place
mutation of the object returned by `get_track`). -/
def updateFirst (p : Track → Bool) (f : Track → Track) : List Track → List Track
  | [] => []
  | t :: ts => if p t then f t :: ts else t :: updateFirst p f ts

/-- The second half of the non-swap update path of
`DeepSORTLiteTracker._update_track_with_detection`: for non-TENTATIVE
tracks with a detection embedding, push it into the history ring,
recompute the mean and L2-renormalise (`meanNorm` stands for
`np.linalg.norm` of the recomputed mean; the source guard `norm > 0`
becomes `0 < meanNorm`); then the TENTATIVE → CONFIRMED promotion when
`hits ≥ min_hits`, seeding the embedding.  Returns the track and
whether `tracks_confirmed` was incremented. -/
def updateEmbeddingAndPhase (min_hits : ℕ) (t : Track)
    (embedding : Option Vec) (meanNorm : ℚ) : Track × Bool :=
  let t1 :=
    match embedding with
    | some e =>
        if t.phase ≠ TrackPhase.TENTATIVE then
          let hist := dequeAppend5 t.embedding_history e
          let mean := vecMean hist
          let emb := if 0 < meanNorm then vecScale (1 / meanNorm) mean else mean
          { t with embedding_history := hist, embedding := some emb }
        else t
    | none => t
  if t.phase = TrackPhase.TENTATIVE then
    if min_hits ≤ t.hits then
      match embedding with
      | some e =>
          ({ t1 with phase := TrackPhase.CONFIRMED, embedding := some e,
                     embedding_history := dequeAppend5 t1.embedding_history e },
           true)
      | none => ({ t1 with phase := TrackPhase.CONFIRMED }, true)
    else (t1, false)
  else (t1, false)

/-- Embeds `DeepSORTLiteTracker._update_track_with_detection`
(`vision/tracker.py` lines 492-583): refresh bbox/score/hits/
time_since_update and landmarks; then person-swap detection — if the
track is recognized, both the detection and the track carry an
embedding, and `1 - dot` exceeds 0.7, reset the track to CONFIRMED
with cleared identity and history and the new embedding seeded;
otherwise run the embedding-mean update and phase promotion. -/
def updateTrackWithDetection (min_hits : ℕ) (t : Track) (bbox : BBox)
    (score : ℚ) (embedding : Option Vec) (landmarks : Option (List ℚ))
    (meanNorm : ℚ) : Track × Bool :=
  let t1 := { t with bbox := bbox, score := score, hits := t.hits + 1,
                     time_since_update := 0,
                     landmarks := landmarks.or t.landmarks }
  match embedding, t.embedding, t.recognized with
  | some e, some te, true =>
      let distance := 1 - vecDot te e
      if 7 / 10 < distance then
        ({ t1 with recognized := false,
                   recognition_attempts := 0,
                   face_id := none,
                   user_id := none,
                   name := none,
                   status := none,
                   confidence := 0,
                   recognized_at := none,
                   phase := TrackPhase.CONFIRMED,
                   embedding_history := [e],
                   embedding := some e }, false)
      else updateEmbeddingAndPhase min_hits t1 embedding meanNorm
  | _, _, _ => updateEmbeddingAndPhase min_hits t1 embedding meanNorm

/-- Phase-dependent removal timeout chosen by
`DeepSORTLiteTracker._remove_dead_tracks`: TENTATIVE → 3, recognized
→ 5, otherwise `max_age`. -/
def trackTimeout (max_age : ℕ) (t : Track) : ℕ :=
  if t.phase = TrackPhase.TENTATIVE then 3
  else if t.recognized then 5
  else max_age

/-- Embeds `DeepSORTLiteTracker._remove_dead_tracks` (`vision/tracker.py`
lines 614-654): keep exactly the tracks with
`time_since_update ≤ timeout`. -/
def removeDeadTracks (max_age : ℕ) (tracks : List Track) : List Track :=
  tracks.filter (fun t => t.time_since_update ≤ trackTimeout max_age t)

/-- Embeds `DeepSORTLiteTracker._get_confirmed_tracks`: CONFIRMED or
RECOGNIZED tracks. -/
def getConfirmedTracks (tracks : List Track) : List Track :=
  tracks.filter (fun t =>
    t.phase = TrackPhase.CONFIRMED ∨ t.phase = TrackPhase.RECOGNIZED)

/-- Step 1 of `DeepSORTLiteTracker.update`: every track increments
`age` and `time_since_update`. -/
def ageTracks (tracks : List Track) : List Track :=
  tracks.map (fun t =>
    { t with age := t.age + 1, time_since_update := t.time_since_update + 1 })

/-- The `if not detections` branch of `DeepSORTLiteTracker.update`
(`vision/tracker.py` lines 278-287): age all tracks, remove dead
tracks, return the confirmed tracks.  Result is the new internal
track list paired with the returned list. -/
def updateEmptyDetections (max_age : ℕ) (st : TrackerState) :
    TrackerState × List Track :=
  let aged := ageTracks st.tracks
  let alive := removeDeadTracks max_age aged
  ({ st with tracks := alive }, getConfirmedTracks alive)

/-- Embeds `DeepSORTLiteTracker._compute_iou` (`vision/tracker.py` lines
670-687): intersection over union, defined as 0 when the union area is
non-positive. -/
def computeIoU (b1 b2 : BBox) : ℚ :=
  let x1 := max b1.x1 b2.x1
  let y1 := max b1.y1 b2.y1
  let x2 := min b1.x2 b2.x2
  let y2 := min b1.y2 b2.y2
  let inter_area := max 0 (x2 - x1) * max 0 (y2 - y1)
  let area1 := (b1.x2 - b1.x1) * (b1.y2 - b1.y1)
  let area2 := (b2.x2 - b2.x1) * (b2.y2 - b2.y1)
  let union_area := area1 + area2 - inter_area
  if union_area ≤ 0 then 0 else inter_area / union_area

/-- Embeds `DeepSORTLiteTracker.update_track_recognition` (`vision/tracker.py`
lines 759-806): refuse when the track is missing or already
recognized; otherwise mark it recognized and bump the outcome
counters. -/
def updateTrackRecognition (st : TrackerState) (track_id : ℕ)
    (face_id user_id name : Option String) (status : String)
    (confidence : ℚ) (now : ℚ) : TrackerState × Bool :=
  match getTrack st track_id with
  | none => (st, false)
  | some t =>
      if t.recognized then (st, false)
      else
        let tracks := updateFirst (fun u => u.track_id = track_id)
          (fun u => markRecognized u face_id user_id name status confidence now)
          st.tracks
        let stats := { st.stats with
          tracks_recognized := st.stats.tracks_recognized + 1 }
        let stats :=
          if status = "AUTHORIZED" then
            { stats with authorized_count := stats.authorized_count + 1 }
          else if status = "WANTED" then
            { stats with wanted_count := stats.wanted_count + 1 }
          else
            { stats with unknown_count := stats.unknown_count + 1 }
        ({ st with tracks := tracks, stats := stats }, true)

/-- Embeds `DeepSORTLiteTracker.record_recognition_attempt`: bump the
attempt counter of the track found by `get_track`, if any. -/
def recordRecognitionAttempt (st : TrackerState) (track_id : ℕ) : TrackerState :=
  match getTrack st track_id with
  | none => st
  | some _ =>
      let tracks := updateFirst (fun u => u.track_id = track_id)
        (fun u => { u with recognition_attempts := u.recognition_attempts + 1 })
        st.tracks
      { st with tracks := tracks }

/-- The per-index metadata record kept in `FaceDatabase._metadata`
(`storage/face_db.py`): `{face_id, user_id, name, status}`
(`user_id` may be `None`: the sync worker passes
`item.get("person_id")`). -/
structure FaceMeta where
  face_id : String
  user_id : Option String
  name : String
  status : String
deriving DecidableEq, Repr

/-- Association-list lookup (Python dict read). -/
def alookup {α : Type} [DecidableEq α] {β : Type} (m : List (α × β)) (k : α) :
    Option β :=
  (m.find? (fun p => p.1 = k)).map Prod.snd

/-- Association-list write `m[k] = v` (replace-or-append). -/
def ainsert {α : Type} [DecidableEq α] {β : Type} (m : List (α × β)) (k : α)
    (v : β) : List (α × β) :=
  if (m.find? (fun p => p.1 = k)).isSome then
    m.map (fun p => if p.1 = k then (k, v) else p)
  else m ++ [(k, v)]

/-- Association-list delete `del m[k]`. -/
def aerase {α : Type} [DecidableEq α] {β : Type} (m : List (α × β)) (k : α) :
    List (α × β) :=
  m.filter (fun p => ¬ p.1 = k)

/-- The on-disk state of a `FaceDatabase`: the side-car metadata JSON,
the ANN index file and the version file (`storage/face_db.py`
`_save` / `_load`). -/
structure FaceDBDisk where
  metadata : List (ℕ × FaceMeta)
  face_id_to_idx : List (String × ℕ)
  next_idx : ℕ
  vectors : List (ℕ × Vec)
  version : ℕ
deriving DecidableEq, Repr

/-- In-memory state of a `FaceDatabase` (`storage/face_db.py`):
configured dimension, metadata dict, `face_id → idx` dict, next free
index, the index's stored vectors, the sync version, and the disk
image last written by `_save`. -/
structure FaceDB where
  dim : ℕ
  metadata : List (ℕ × FaceMeta)
  face_id_to_idx : List (String × ℕ)
  next_idx : ℕ
  vectors : List (ℕ × Vec)
  version : ℕ
  disk : FaceDBDisk
deriving DecidableEq, Repr

/-- Embeds `FaceDatabase._save`: write metadata, index and version to disk. -/
def dbSave (db : FaceDB) : FaceDB :=
  { db with disk :=
      ⟨db.metadata, db.face_id_to_idx, db.next_idx, db.vectors, db.version⟩ }

/-- Embeds `FaceDatabase.get_version`. -/
def getVersion (db : FaceDB) : ℕ := db.version

/-- Embeds `FaceDatabase.set_version`: record the version and `_save`. -/
def setVersion (db : FaceDB) (version : ℕ) : FaceDB :=
  dbSave { db with version := version }

/-- Embeds `FaceDatabase.add_face` (`storage/face_db.py` lines 171-228).
`n` stands for `np.linalg.norm(embedding)` (see the module
conventions).  Rejects an embedding whose flattened length differs
from the configured dimension; L2-normalises when the norm is
positive; on a duplicate `face_id` updates the metadata only (the
stored vector is left as-is); otherwise appends a fresh index entry.
Returns the updated database and the Python return value. -/
def addFace (db : FaceDB) (face_id : String) (user_id : Option String)
    (name status : String) (e : Vec) (n : ℚ) : FaceDB × Bool :=
  if ¬ e.length = db.dim then (db, false)
  else
    let e := if 0 < n then vecScale (1 / n) e else e
    match alookup db.face_id_to_idx face_id with
    | some idx =>
        ({ db with metadata := ainsert db.metadata idx ⟨face_id, user_id, name, status⟩ },
         true)
    | none =>
        let idx := db.next_idx
        ({ db with next_idx := idx + 1,
                   metadata := ainsert db.metadata idx ⟨face_id, user_id, name, status⟩,
                   face_id_to_idx := ainsert db.face_id_to_idx face_id idx,
                   vectors := ainsert db.vectors idx e }, true)

/-- Embeds `FaceDatabase.remove_face`: drop the metadata entry and the
`face_id → idx` mapping (the raw index vector is kept, as the source
notes, until a rebuild). -/
def removeFace (db : FaceDB) (face_id : String) : FaceDB × Bool :=
  match alookup db.face_id_to_idx face_id with
  | none => (db, false)
  | some idx =>
      ({ db with metadata := aerase db.metadata idx,
                 face_id_to_idx := aerase db.face_id_to_idx face_id }, true)

/-- One record of the `upserts` array in a sync response
(`GET /api/v1/faces/sync`).  `norm` carries `np.linalg.norm` of
`embedding` for the embedded `add_face` (module conventions). -/
structure UpsertItem where
  id : String
  person_id : Option String
  full_name : String
  status : String
  embedding : Vec
  norm : ℚ
deriving DecidableEq, Repr

/-- A sync response `{version, upserts, deletes}`. -/
structure SyncResponse where
  version : ℕ
  upserts : List UpsertItem
  deletes : List String
deriving DecidableEq, Repr

/-- Outcome of one `SyncThread._sync_faces` round: the face database
afterwards, plus the thread's `last_sync_success` / `sync_error`
fields. -/
structure SyncOutcome where
  db : FaceDB
  last_sync_success : Bool
  sync_error : Option String
deriving DecidableEq, Repr

/-- The body of `SyncThread._sync_faces` (`threads/sync.py` lines
83-173) after a response `{version, upserts, deletes}` has been
received.  When there is nothing to apply the round succeeds with the
database untouched.  Otherwise the round removes every id in
`deletes`, then `add_face`s every upsert — and then executes
`self.face_db.save()`.  `FaceDatabase` defines no attribute `save`
(its private persist method is `_save`), so that call raises
`AttributeError`; the `except Exception` handler catches it, records
the error and marks the round failed.  `set_version(new_version)` on
the line after the raise is never executed, so neither the index nor
the new version is persisted. -/
def syncFaces (db : FaceDB) (resp : SyncResponse) : SyncOutcome :=
  if resp.upserts = [] ∧ resp.deletes = [] then
    ⟨db, true, none⟩
  else
    let db := resp.deletes.foldl (fun d fid => (removeFace d fid).1) db
    let db := resp.upserts.foldl
      (fun d it => (addFace d it.id it.person_id it.full_name it.status
        it.embedding it.norm).1) db
    ⟨db, false,
     some "FaceDatabase object has no attribute save"⟩

/-- One search hit `(person_id, distance, metadata)` as returned by
`FaceDatabase.search`. -/
structure SearchHit where
  person_id : String
  distance : ℚ
  meta : FaceMeta
deriving DecidableEq, Repr

/-- Outcome of `GateNode._recognize_track`: tracker and gate
controller afterwards, the decision made (when a match was found) and
the Python return value. -/
structure RecognizeOutcome where
  tracker : TrackerState
  gate : GateControllerState
  decision : Option GateDecision
  completed : Bool
deriving DecidableEq, Repr

/-- The decision/act section of `GateNode._recognize_track`
(`src/gate-node/main.py` lines 466-592), from the `face_db.search`
result on.  On a hit: confidence = 1 − distance, `make_decision`, map
the decision to a status string, `update_track_recognition`, then —
unconditionally, whatever the decision — `gate_controller.open_gate`.
On a miss: `record_recognition_attempt`; when the track's attempt
counter has reached `max_attempts`, terminally mark it UNKNOWN; the
gate controller is never touched on this branch. -/
def recognizeTrack (eng : DecisionEngine) (trk : TrackerState)
    (gate : GateControllerState) (track_id : ℕ) (results : List SearchHit)
    (max_attempts : ℕ) (now : ℚ) : RecognizeOutcome :=
  match results with
  | hit :: _ =>
      let confidence := 1 - hit.distance
      let decision := make_decision eng true confidence hit.meta.status
      let status :=
        match decision with
        | GateDecision.AUTHORIZED => "AUTHORIZED"
        | GateDecision.WANTED => "WANTED"
        | GateDecision.UNKNOWN => "UNKNOWN"
      let trk := (updateTrackRecognition trk track_id (some hit.person_id)
        hit.meta.user_id (some hit.meta.name) status confidence now).1
      let gate := (open_gate gate (some decision) now).1
      ⟨trk, gate, some decision, true⟩
  | [] =>
      let trk := recordRecognitionAttempt trk track_id
      match getTrack trk track_id with
      | some t =>
          if max_attempts ≤ t.recognition_attempts then
            let trk := (updateTrackRecognition trk track_id none none none
              "UNKNOWN" 0 now).1
            ⟨trk, gate, none, true⟩
          else ⟨trk, gate, none, false⟩
      | none => ⟨trk, gate, none, false⟩

/-! ## Shared concrete sample states for witnesses -/

/-- Zeroed tracker statistics. -/
def stats0 : TrackerStatistics := ⟨0, 0, 0, 0, 0, 0, 0⟩

/-- A sample RECOGNIZED track (id 1, identity recorded). -/
def trackRec : Track :=
  ⟨1, ⟨0, 0, 10, 10⟩, 9/10, none, TrackPhase.RECOGNIZED, 5, 10, 0,
   some [1, 0], [[1, 0]], true, 1, some "F1", some "U1", some "Ann",
   some "AUTHORIZED", 9/10, 0, some 1⟩

/-- A sample CONFIRMED, not-yet-recognized track (id 1). -/
def trackConf : Track :=
  ⟨1, ⟨0, 0, 10, 10⟩, 9/10, none, TrackPhase.CONFIRMED, 3, 5, 0,
   none, [], false, 0, none, none, none, none, 0, 0, none⟩

/-- An empty face database configured with dimension 2. -/
def emptyDB2 : FaceDB := ⟨2, [], [], 0, [], 0, ⟨[], [], 0, [], 0⟩⟩

/-! ## C5 — decision engine case analysis -/

/-- C5: the decision engine is a pure function returning UNKNOWN when
no match was found; AUTHORIZED exactly for an AUTHORIZED match at or
above the auth threshold; WANTED exactly for a WANTED match at or
above the wanted threshold; and UNKNOWN in every other case — a
below-threshold AUTHORIZED or WANTED match, or a match with any other
status string, i.e. any status whose uppercasing (the code dispatches
on `status.upper()`) is neither AUTHORIZED nor WANTED. -/
theorem make_decision_cases (tA tW c : ℚ) (s : String) :
    make_decision ⟨tA, tW⟩ false c s = GateDecision.UNKNOWN
    ∧ (tA ≤ c → make_decision ⟨tA, tW⟩ true c "AUTHORIZED" = GateDecision.AUTHORIZED)
    ∧ (c < tA → make_decision ⟨tA, tW⟩ true c "AUTHORIZED" = GateDecision.UNKNOWN)
    ∧ (tW ≤ c → make_decision ⟨tA, tW⟩ true c "WANTED" = GateDecision.WANTED)
    ∧ (c < tW → make_decision ⟨tA, tW⟩ true c "WANTED" = GateDecision.UNKNOWN)
    ∧ (¬ pyUpper s = "AUTHORIZED" → ¬ pyUpper s = "WANTED" →
        make_decision ⟨tA, tW⟩ true c s = GateDecision.UNKNOWN) := by
  have hAW : ¬ pyUpper "AUTHORIZED" = "WANTED" := by decide
  have hAA : pyUpper "AUTHORIZED" = "AUTHORIZED" := by decide
  have hWW : pyUpper "WANTED" = "WANTED" := by decide
  refine ⟨rfl, ?_, ?_, ?_, ?_, ?_⟩
  · intro h
    simp [make_decision, hAW, hAA, h]
  · intro h
    simp [make_decision, hAW, hAA, not_le.mpr h]
  · intro h
    simp [make_decision, hWW, h]
  · intro h
    simp [make_decision, hWW, not_le.mpr h]
  · intro hsA hsW
    simp [make_decision, hsA, hsW]

/-- Witness for C5 at the runtime thresholds (auth 0.5, wanted 0.7):
an AUTHORIZED match at confidence 0.6 is granted, a WANTED match at
the same confidence falls below its threshold and yields UNKNOWN, and
a match with the unrelated status "PENDING" yields UNKNOWN. -/
theorem make_decision_cases_witness :
    make_decision ⟨1/2, 7/10⟩ true (6/10) "AUTHORIZED" = GateDecision.AUTHORIZED
    ∧ make_decision ⟨1/2, 7/10⟩ true (6/10) "WANTED" = GateDecision.UNKNOWN
    ∧ make_decision ⟨1/2, 7/10⟩ true (6/10) "PENDING" = GateDecision.UNKNOWN :=
  ⟨(make_decision_cases (1/2) (7/10) (6/10) "x").2.1 (by norm_num),
   (make_decision_cases (1/2) (7/10) (6/10) "x").2.2.2.2.1 (by norm_num),
   (make_decision_cases (1/2) (7/10) (6/10) "PENDING").2.2.2.2.2
     (by decide) (by decide)⟩

/-! ## C10 — wrong-dimension embedding rejected without mutation -/

/-- C10: `add_face` called with an embedding whose flattened length
differs from the configured dimension returns False and leaves the
whole database state unchanged (no metadata entry, no face_id mapping,
no index vector, `next_idx` untouched). -/
theorem addFace_wrong_dim_rejected (db : FaceDB) (face_id : String)
    (uid : Option String) (name status : String) (e : Vec) (n : ℚ)
    (h : ¬ e.length = db.dim) :
    addFace db face_id uid name status e n = (db, false) := by
  simp [addFace, h]

/-- Witness for C10: a 1-dimensional embedding against a database
configured for dimension 2 is rejected with the state unchanged. -/
theorem addFace_wrong_dim_rejected_witness :
    addFace emptyDB2 "F1" none "Ann" "AUTHORIZED" [1] 1 = (emptyDB2, false) :=
  addFace_wrong_dim_rejected emptyDB2 "F1" none "Ann" "AUTHORIZED" [1] 1 (by decide)

/-! ## C3 — at most one recognition-marking call succeeds -/

/-- C3: once a track's recognized flag is true, any further
`update_track_recognition` call for that track id returns False and
leaves the whole tracker state — the track's phase, identity fields
and every statistics counter — unchanged. -/
theorem updateTrackRecognition_refused_when_recognized
    (st : TrackerState) (track_id : ℕ) (t : Track)
    (face_id user_id name : Option String) (status : String)
    (confidence now : ℚ)
    (hfind : getTrack st track_id = some t) (hrec : t.recognized = true) :
    updateTrackRecognition st track_id face_id user_id name status
      confidence now = (st, false) := by
  simp [updateTrackRecognition, hfind, hrec]

/-- Witness for C3: a second marking call on the already-recognized
sample track is refused with the state unchanged. -/
theorem updateTrackRecognition_refused_when_recognized_witness :
    updateTrackRecognition ⟨[trackRec], 2, stats0⟩ 1 (some "F2") none
      (some "Bob") "WANTED" (8/10) 3 = (⟨[trackRec], 2, stats0⟩, false) :=
  updateTrackRecognition_refused_when_recognized ⟨[trackRec], 2, stats0⟩ 1
    trackRec (some "F2") none (some "Bob") "WANTED" (8/10) 3 rfl rfl

/-! ## C6 — phase-dependent dead-track timeouts -/

/-- C6: dead-track removal is by phase-dependent timeout — a TENTATIVE
track is removed iff `time_since_update > 3`, a recognized
(RECOGNIZED-phase) track iff `time_since_update > 5`, and a CONFIRMED
but not recognized track iff `time_since_update > max_age`; a track at
or below its timeout always survives. -/
theorem removeDeadTracks_phase_timeouts (max_age : ℕ) (tracks : List Track)
    (t : Track) (hmem : t ∈ tracks) :
    (t.phase = TrackPhase.TENTATIVE →
      (t ∉ removeDeadTracks max_age tracks ↔ 3 < t.time_since_update))
    ∧ (t.recognized = true → t.phase = TrackPhase.RECOGNIZED →
      (t ∉ removeDeadTracks max_age tracks ↔ 5 < t.time_since_update))
    ∧ (t.recognized = false → t.phase = TrackPhase.CONFIRMED →
      (t ∉ removeDeadTracks max_age tracks ↔ max_age < t.time_since_update)) := by
  refine ⟨?_, ?_, ?_⟩
  · intro hp
    simp [removeDeadTracks, List.mem_filter, hmem, trackTimeout, hp, not_le]
  · intro hr hp
    simp [removeDeadTracks, List.mem_filter, hmem, trackTimeout, hp, hr, not_le]
  · intro hr hp
    simp [removeDeadTracks, List.mem_filter, hmem, trackTimeout, hp, hr, not_le]

/-- A four-frames-stale TENTATIVE variant of the sample track. -/
def trackTent4 : Track := { trackConf with phase := TrackPhase.TENTATIVE, time_since_update := 4 }

/-- A five-frames-stale variant of the recognized sample track. -/
def trackRec5 : Track := { trackRec with time_since_update := 5 }

/-- Witness for C6: a TENTATIVE track four frames stale is removed,
and via the same theorem a RECOGNIZED track five frames stale
survives. -/
theorem removeDeadTracks_phase_timeouts_witness :
    (3 < trackTent4.time_since_update
      ∧ trackTent4 ∉ removeDeadTracks 30 [trackTent4])
    ∧ ¬ 5 < trackRec5.time_since_update
      ∧ trackRec5 ∈ removeDeadTracks 30 [trackRec5] := by
  have h1 := (removeDeadTracks_phase_timeouts 30 [trackTent4] trackTent4
    (by simp)).1 rfl
  have h2 := (removeDeadTracks_phase_timeouts 30 [trackRec5] trackRec5
    (by simp)).2.1 rfl rfl
  refine ⟨⟨by norm_num [trackTent4, trackConf], h1.mpr (by norm_num [trackTent4, trackConf])⟩,
    by norm_num [trackRec5, trackRec], ?_⟩
  by_contra hmem
  exact absurd (h2.mp hmem) (by norm_num [trackRec5, trackRec])

/-! ## C9 — totality on degenerate inputs -/

/-- C9: the tracker is total on degenerate inputs — an update with an
empty detection list still increments `age` and `time_since_update` of
every track (pointwise), applies phase-timeout dead-track removal,
and returns the (no longer than before) list of confirmed tracks; and
the IoU of a zero-area or degenerate box with any box is 0, hence
below any positive IoU threshold and never a valid match. -/
theorem tracker_degenerate_inputs_total (max_age : ℕ) (st : TrackerState)
    (b1 b2 : BBox) (thr : ℚ)
    (hdeg : b1.x2 ≤ b1.x1 ∨ b1.y2 ≤ b1.y1) (hthr : 0 < thr) :
    (∀ i : ℕ, (ageTracks st.tracks)[i]? =
      Option.map (fun u => { u with age := u.age + 1, time_since_update := u.time_since_update + 1 }) st.tracks[i]?)
    ∧ (updateEmptyDetections max_age st).1.tracks
        = removeDeadTracks max_age (ageTracks st.tracks)
    ∧ (updateEmptyDetections max_age st).2
        = getConfirmedTracks (removeDeadTracks max_age (ageTracks st.tracks))
    ∧ (updateEmptyDetections max_age st).2.length ≤ st.tracks.length
    ∧ computeIoU b1 b2 = 0
    ∧ computeIoU b1 b2 < thr := by
  have hiou : computeIoU b1 b2 = 0 := by
    have hinter : max 0 (min b1.x2 b2.x2 - max b1.x1 b2.x1) *
        max 0 (min b1.y2 b2.y2 - max b1.y1 b2.y1) = 0 := by
      rcases hdeg with h | h
      · have hx : min b1.x2 b2.x2 - max b1.x1 b2.x1 ≤ 0 := by
          have := min_le_left b1.x2 b2.x2
          have := le_max_left b1.x1 b2.x1
          linarith
        rw [max_eq_left hx, zero_mul]
      · have hy : min b1.y2 b2.y2 - max b1.y1 b2.y1 ≤ 0 := by
          have := min_le_left b1.y2 b2.y2
          have := le_max_left b1.y1 b2.y1
          linarith
        rw [max_eq_left hy, mul_zero]
    unfold computeIoU
    simp only [hinter]
    split
    · rfl
    · simp
  refine ⟨?_, rfl, rfl, ?_, hiou, by rw [hiou]; exact hthr⟩
  · intro i
    simp [ageTracks]
  · calc (updateEmptyDetections max_age st).2.length
        ≤ (removeDeadTracks max_age (ageTracks st.tracks)).length :=
          List.length_filter_le _ _
      _ ≤ (ageTracks st.tracks).length := List.length_filter_le _ _
      _ = st.tracks.length := List.length_map _ _

/-- Witness for C9: one aged sample track, and the IoU of the
degenerate box `[5,5,5,9]` with the unit-square box is 0, below the
default threshold 0.3. -/
theorem tracker_degenerate_inputs_total_witness :
    (ageTracks [trackConf])[0]? = some { trackConf with age := trackConf.age + 1, time_since_update := trackConf.time_since_update + 1 }
    ∧ computeIoU ⟨5, 5, 5, 9⟩ ⟨0, 0, 1, 1⟩ = 0
    ∧ computeIoU ⟨5, 5, 5, 9⟩ ⟨0, 0, 1, 1⟩ < 3/10 := by
  have h := tracker_degenerate_inputs_total 30 ⟨[trackConf], 2, stats0⟩
    ⟨5, 5, 5, 9⟩ ⟨0, 0, 1, 1⟩ (3/10) (Or.inl (by norm_num)) (by norm_num)
  exact ⟨by simpa using h.1 0, h.2.2.2.2.1, h.2.2.2.2.2⟩

/-! ## C7 — second open while open: extend, not cooldown suppression -/

/-- A sample gate controller that is currently open (GPIO enabled,
open_duration 5 s, cooldown 2 s, opened at time 0, auto-close timer
pending at time 3). -/
def gateOpen0 : GateControllerState :=
  ⟨true, true, 5, 2, true, 0, some 3, true, ⟨1, 1, 0, 0⟩⟩

/-- Counterexample to C7: with the gate already open and a second
`open()` arriving at time 1 — within the 2 s cooldown of the previous
open at time 0 — the call is not suppressed: the pending auto-close
schedule changes (the timer armed for time 3 is cancelled and re-armed
for time 6). -/
theorem open_gate_cooldown_counterexample :
    gateOpen0.is_open = true
    ∧ (1 : ℚ) - gateOpen0.last_open_time < gateOpen0.cooldown
    ∧ (open_gate gateOpen0 (some GateDecision.AUTHORIZED) 1).1.close_timer
        ≠ gateOpen0.close_timer
    ∧ (open_gate gateOpen0 (some GateDecision.AUTHORIZED) 1).1.close_timer
        = some 6 := by
  refine ⟨rfl, by norm_num [gateOpen0], ?_, ?_⟩
  · simp [open_gate, gateOpen0, openGateStats]
    norm_num
  · simp [open_gate, gateOpen0, openGateStats]
    norm_num

/-- C7 as amended: while the gate is already open, a second `open()`
call performs no relay action and does not close the gate, but it is
not suppressed by the cooldown (which `open_gate` never reads): it
always cancels the pending auto-close timer and re-arms it for
`open_duration` after the call, and returns True. -/
theorem open_gate_extend_semantics (g : GateControllerState)
    (d : Option GateDecision) (now : ℚ) (h : g.is_open = true) :
    (open_gate g d now).2 = true
    ∧ (open_gate g d now).1.relay_on = g.relay_on
    ∧ (open_gate g d now).1.is_open = true
    ∧ (open_gate g d now).1.close_timer = some (now + g.open_duration)
    ∧ (open_gate g d now).1.last_open_time = now
    ∧ (open_gate g d now).1.cooldown = g.cooldown
    ∧ (open_gate g d now).1.open_duration = g.open_duration := by
  simp [open_gate, h]

/-- Witness for C7's amended theorem at the sample open gate. -/
theorem open_gate_extend_semantics_witness :
    (open_gate gateOpen0 none 1).2 = true
    ∧ (open_gate gateOpen0 none 1).1.relay_on = gateOpen0.relay_on
    ∧ (open_gate gateOpen0 none 1).1.is_open = true
    ∧ (open_gate gateOpen0 none 1).1.close_timer = some (1 + gateOpen0.open_duration)
    ∧ (open_gate gateOpen0 none 1).1.last_open_time = 1
    ∧ (open_gate gateOpen0 none 1).1.cooldown = gateOpen0.cooldown
    ∧ (open_gate gateOpen0 none 1).1.open_duration = gateOpen0.open_duration :=
  open_gate_extend_semantics gateOpen0 none 1 rfl

/-! ## C4 — swap reset is the only regression out of RECOGNIZED -/

/-- C4: in a matched update of a RECOGNIZED track, if the detection
carries an embedding, the track has a stored embedding, and the
cosine distance `1 − dot` between them exceeds 0.7, the track is reset
to CONFIRMED with `recognized = false`, every identity field cleared,
the history cleared, and the new detection embedding seeded; in every
other matched update the track stays RECOGNIZED with
`recognized = true` and its identity unchanged. -/
theorem recognized_track_swap_reset_only (min_hits : ℕ) (t : Track)
    (bbox : BBox) (score : ℚ) (emb : Option Vec) (lm : Option (List ℚ))
    (meanNorm : ℚ) (hrec : t.recognized = true)
    (hph : t.phase = TrackPhase.RECOGNIZED) :
    (∀ e te, emb = some e → t.embedding = some te → 7/10 < 1 - vecDot te e →
      ((updateTrackWithDetection min_hits t bbox score emb lm meanNorm).1.phase
          = TrackPhase.CONFIRMED
        ∧ (updateTrackWithDetection min_hits t bbox score emb lm meanNorm).1.recognized = false
        ∧ (updateTrackWithDetection min_hits t bbox score emb lm meanNorm).1.face_id = none
        ∧ (updateTrackWithDetection min_hits t bbox score emb lm meanNorm).1.user_id = none
        ∧ (updateTrackWithDetection min_hits t bbox score emb lm meanNorm).1.name = none
        ∧ (updateTrackWithDetection min_hits t bbox score emb lm meanNorm).1.status = none
        ∧ (updateTrackWithDetection min_hits t bbox score emb lm meanNorm).1.confidence = 0
        ∧ (updateTrackWithDetection min_hits t bbox score emb lm meanNorm).1.recognized_at = none
        ∧ (updateTrackWithDetection min_hits t bbox score emb lm meanNorm).1.recognition_attempts = 0
        ∧ (updateTrackWithDetection min_hits t bbox score emb lm meanNorm).1.embedding = some e
        ∧ (updateTrackWithDetection min_hits t bbox score emb lm meanNorm).1.embedding_history = [e]))
    ∧ ((∀ e te, emb = some e → t.embedding = some te → 1 - vecDot te e ≤ 7/10) →
      ((updateTrackWithDetection min_hits t bbox score emb lm meanNorm).1.recognized = true
        ∧ (updateTrackWithDetection min_hits t bbox score emb lm meanNorm).1.phase
            = TrackPhase.RECOGNIZED
        ∧ (updateTrackWithDetection min_hits t bbox score emb lm meanNorm).1.face_id = t.face_id
        ∧ (updateTrackWithDetection min_hits t bbox score emb lm meanNorm).1.user_id = t.user_id
        ∧ (updateTrackWithDetection min_hits t bbox score emb lm meanNorm).1.name = t.name
        ∧ (updateTrackWithDetection min_hits t bbox score emb lm meanNorm).1.status = t.status
        ∧ (updateTrackWithDetection min_hits t bbox score emb lm meanNorm).1.confidence
            = t.confidence)) := by
  constructor
  · intro e te he hte hd
    subst he
    rcases lm with _ | l <;> simp [updateTrackWithDetection, hte, hrec, hd]
  · intro hno
    rcases he : emb with _ | e
    · rcases lm with _ | l <;>
        simp [updateTrackWithDetection, updateEmbeddingAndPhase, hph, hrec]
    · rcases hte : t.embedding with _ | te
      · rcases lm with _ | l <;>
          simp [updateTrackWithDetection, updateEmbeddingAndPhase, hph, hrec, hte]
      · have hle : ¬ (7/10 < 1 - vecDot te e) := not_lt.mpr (hno e te he hte)
        rcases lm with _ | l <;>
          simp [updateTrackWithDetection, updateEmbeddingAndPhase, hph, hrec, hte, hle]

/-- Witness for C4: the recognized sample track (stored embedding
`[1,0]`) matched against a detection with embedding `[0,1]` (cosine
distance 1 > 0.7) is swap-reset. -/
theorem recognized_track_swap_reset_only_witness :
    (updateTrackWithDetection 3 trackRec ⟨0, 0, 10, 10⟩ 1 (some [0, 1]) none 1).1.phase
        = TrackPhase.CONFIRMED
    ∧ (updateTrackWithDetection 3 trackRec ⟨0, 0, 10, 10⟩ 1 (some [0, 1]) none 1).1.recognized = false
    ∧ (updateTrackWithDetection 3 trackRec ⟨0, 0, 10, 10⟩ 1 (some [0, 1]) none 1).1.face_id = none
    ∧ (updateTrackWithDetection 3 trackRec ⟨0, 0, 10, 10⟩ 1 (some [0, 1]) none 1).1.user_id = none
    ∧ (updateTrackWithDetection 3 trackRec ⟨0, 0, 10, 10⟩ 1 (some [0, 1]) none 1).1.name = none
    ∧ (updateTrackWithDetection 3 trackRec ⟨0, 0, 10, 10⟩ 1 (some [0, 1]) none 1).1.status = none
    ∧ (updateTrackWithDetection 3 trackRec ⟨0, 0, 10, 10⟩ 1 (some [0, 1]) none 1).1.confidence = 0
    ∧ (updateTrackWithDetection 3 trackRec ⟨0, 0, 10, 10⟩ 1 (some [0, 1]) none 1).1.recognized_at = none
    ∧ (updateTrackWithDetection 3 trackRec ⟨0, 0, 10, 10⟩ 1 (some [0, 1]) none 1).1.recognition_attempts = 0
    ∧ (updateTrackWithDetection 3 trackRec ⟨0, 0, 10, 10⟩ 1 (some [0, 1]) none 1).1.embedding = some [0, 1]
    ∧ (updateTrackWithDetection 3 trackRec ⟨0, 0, 10, 10⟩ 1 (some [0, 1]) none 1).1.embedding_history = [[0, 1]] :=
  (recognized_track_swap_reset_only 3 trackRec ⟨0, 0, 10, 10⟩ 1 (some [0, 1])
    none 1 rfl rfl).1 [0, 1] [1, 0] rfl rfl
    (by norm_num [vecDot])

/-! ## C8 — L2 norm of stored embeddings -/

/-- Scaling a vector by `c` multiplies its squared L2 norm by `c²`. -/
lemma l2normSq_vecScale (c : ℚ) (v : Vec) :
    l2normSq (vecScale c v) = c * c * l2normSq v := by
  induction v with
  | nil => simp [l2normSq, vecScale]
  | cons x xs ih =>
      simp only [vecScale, List.map_cons, l2normSq, List.sum_cons] at ih ⊢
      rw [ih]
      ring

/-- Counterexample to C8: `add_face` accepts the all-zero embedding of
the configured dimension (its true L2 norm is 0, so the `norm > 0`
normalisation guard is skipped) and stores it as the index vector; the
stored vector has squared L2 norm 0, so its L2 norm is not within
10⁻³ of 1. -/
theorem addFace_zero_embedding_counterexample :
    (0 : ℚ) * 0 = l2normSq [0, 0]
    ∧ (addFace emptyDB2 "F1" none "Ann" "AUTHORIZED" [0, 0] 0).2 = true
    ∧ (addFace emptyDB2 "F1" none "Ann" "AUTHORIZED" [0, 0] 0).1.vectors
        = [(0, [0, 0])]
    ∧ l2normSq [0, 0] = 0
    ∧ ¬ ((1 - 1/1000) * (1 - 1/1000) ≤ l2normSq [0, 0]) := by
  refine ⟨by norm_num [l2normSq], ?_, ?_, by norm_num [l2normSq], ?_⟩
  · simp [addFace, emptyDB2, alookup, ainsert]
  · simp [addFace, emptyDB2, alookup, ainsert, vecScale]
  · norm_num [l2normSq]

/-- C8 as amended: a face-index vector stored by `add_face` for a
fresh face whose input embedding has positive norm is the input scaled
by the reciprocal of its L2 norm and has squared L2 norm exactly 1;
and after any matched update that recomputes the running mean — the
track is not TENTATIVE and the update is not a swap reset (which never
reaches the mean code), covering CONFIRMED tracks and RECOGNIZED
tracks within the 0.7 swap threshold alike — whose recomputed history
mean has positive norm, the track embedding is that mean scaled by the
reciprocal of its norm, of squared L2 norm exactly 1.  (A zero-norm
vector — the counterexample — skips the guard and is stored
unnormalised.) -/
theorem stored_embedding_unit_normSq (db : FaceDB) (face_id : String)
    (uid : Option String) (name status : String) (e : Vec) (n : ℚ)
    (min_hits : ℕ) (t : Track) (bbox : BBox) (score : ℚ)
    (lm : Option (List ℚ)) (meanNorm : ℚ) :
    (0 ≤ n → n * n = l2normSq e → 0 < l2normSq e → e.length = db.dim →
      alookup db.face_id_to_idx face_id = none →
      (addFace db face_id uid name status e n).1.vectors
          = ainsert db.vectors db.next_idx (vecScale (1 / n) e)
        ∧ l2normSq (vecScale (1 / n) e) = 1)
    ∧ (t.phase ≠ TrackPhase.TENTATIVE →
      (∀ te, t.embedding = some te → t.recognized = true → 1 - vecDot te e ≤ 7/10) →
      0 ≤ meanNorm →
      meanNorm * meanNorm = l2normSq (vecMean (dequeAppend5 t.embedding_history e)) →
      0 < l2normSq (vecMean (dequeAppend5 t.embedding_history e)) →
      (updateTrackWithDetection min_hits t bbox score (some e) lm meanNorm).1.embedding
          = some (vecScale (1 / meanNorm) (vecMean (dequeAppend5 t.embedding_history e)))
        ∧ l2normSq (vecScale (1 / meanNorm) (vecMean (dequeAppend5 t.embedding_history e))) = 1) := by
  constructor
  · intro hn0 hn hpos hlen hnew
    have hnpos : 0 < n := by
      rcases hn0.lt_or_eq with h | h
      · exact h
      · exfalso
        rw [← h] at hn
        rw [← hn] at hpos
        norm_num at hpos
    refine ⟨?_, ?_⟩
    · simp [addFace, hlen, hnpos, hnew]
    · rw [l2normSq_vecScale, ← hn]
      field_simp
  · intro hph hswap hmn0 hmn hpos
    have hmnpos : 0 < meanNorm := by
      rcases hmn0.lt_or_eq with h | h
      · exact h
      · exfalso
        rw [← h] at hmn
        rw [← hmn] at hpos
        norm_num at hpos
    refine ⟨?_, ?_⟩
    · cases hrec : t.recognized with
      | false =>
          rcases hte : t.embedding with _ | te <;>
            simp [updateTrackWithDetection, updateEmbeddingAndPhase, hph, hrec,
              hte, hmnpos]
      | true =>
          rcases hte : t.embedding with _ | te
          · simp [updateTrackWithDetection, updateEmbeddingAndPhase, hph, hrec,
              hte, hmnpos]
          · have hle : ¬ (7/10 < 1 - vecDot te e) :=
              not_lt.mpr (hswap te hte hrec)
            simp [updateTrackWithDetection, updateEmbeddingAndPhase, hph, hrec,
              hte, hle, hmnpos]
    · rw [l2normSq_vecScale, ← hmn]
      field_simp

/-- Witness for C8's amended theorem: adding the fresh embedding
`[3,4]` (norm 5) to the empty 2-dimensional database stores
`[3/5, 4/5]`, of squared norm 1; and the RECOGNIZED sample track
(stored embedding `[1,0]`, history `[[1,0]]`) matched within the swap
threshold by detection embedding `[1,0]` recomputes its mean `[1,0]`
(norm 1) and ends with an embedding of squared norm 1. -/
theorem stored_embedding_unit_normSq_witness :
    ((addFace emptyDB2 "F1" none "Ann" "AUTHORIZED" [3, 4] 5).1.vectors
        = ainsert emptyDB2.vectors emptyDB2.next_idx (vecScale (1 / 5) [3, 4])
      ∧ l2normSq (vecScale (1 / 5) [3, 4]) = 1)
    ∧ ((updateTrackWithDetection 3 trackRec ⟨0, 0, 10, 10⟩ 1 (some [1, 0]) none 1).1.embedding
        = some (vecScale (1 / 1) (vecMean (dequeAppend5 trackRec.embedding_history [1, 0])))
      ∧ l2normSq (vecScale (1 / 1) (vecMean (dequeAppend5 trackRec.embedding_history [1, 0]))) = 1) :=
  ⟨(stored_embedding_unit_normSq emptyDB2 "F1" none "Ann" "AUTHORIZED" [3, 4] 5
      3 trackRec ⟨0, 0, 10, 10⟩ 1 none 1).1
    (by norm_num) (by norm_num [l2normSq]) (by norm_num [l2normSq])
    (by simp [emptyDB2]) (by simp [emptyDB2, alookup]),
   (stored_embedding_unit_normSq emptyDB2 "F1" none "Ann" "AUTHORIZED" [1, 0] 1
      3 trackRec ⟨0, 0, 10, 10⟩ 1 none 1).2
    (by decide)
    (by
      intro te h hr
      simp [trackRec] at h
      subst h
      norm_num [vecDot])
    (by norm_num)
    (by norm_num [l2normSq, vecMean, vecSum, vecAdd, vecScale, dequeAppend5,
      trackRec, List.zipWith])
    (by norm_num [l2normSq, vecMean, vecSum, vecAdd, vecScale, dequeAppend5,
      trackRec, List.zipWith])⟩

/-! ## C1 — an UNKNOWN decision still opens the gate -/

/-- Decision engine at the runtime defaults bound in
`gate-node/main.py` / `config.py`: `RECOGNITION_THRESHOLD = 0.50`,
`WANTED_CONFIDENCE_THRESHOLD = 0.7`. -/
def engRT : DecisionEngine := ⟨1/2, 7/10⟩

/-- A closed, idle gate controller with GPIO enabled
(open_duration 5 s, cooldown 2 s). -/
def gateClosed0 : GateControllerState :=
  ⟨true, true, 5, 2, false, 0, none, false, ⟨0, 0, 0, 0⟩⟩

/-- A search hit on a WANTED record at cosine distance 0.4
(confidence 0.6, below the wanted threshold 0.7). -/
def hitWanted : SearchHit := ⟨"F9", 2/5, ⟨"F9", some "U9", "Mallory", "WANTED"⟩⟩

/-- Tracker holding the single CONFIRMED unrecognized sample track. -/
def trkConfSt : TrackerState := ⟨[trackConf], 2, stats0⟩

/-- Refutation of C1 on the code: for a database hit whose
decision-engine output is UNKNOWN (a WANTED match at confidence
0.6 < 0.7), `_recognize_track` still calls `open_gate`
unconditionally, so the relay is driven open and an auto-close timer
is armed — the gate does not stay closed.  (The decision engine's own
docstring says UNKNOWN means keep closed.) -/
theorem unknown_decision_opens_gate :
    make_decision engRT true (1 - hitWanted.distance) "WANTED"
        = GateDecision.UNKNOWN
    ∧ (recognizeTrack engRT trkConfSt gateClosed0 1 [hitWanted] 3 10).decision
        = some GateDecision.UNKNOWN
    ∧ gateClosed0.is_open = false
    ∧ gateClosed0.relay_on = false
    ∧ gateClosed0.close_timer = none
    ∧ (recognizeTrack engRT trkConfSt gateClosed0 1 [hitWanted] 3 10).gate.is_open = true
    ∧ (recognizeTrack engRT trkConfSt gateClosed0 1 [hitWanted] 3 10).gate.relay_on = true
    ∧ (recognizeTrack engRT trkConfSt gateClosed0 1 [hitWanted] 3 10).gate.close_timer
        = some 15 := by
  have hWW : pyUpper "WANTED" = "WANTED" := by decide
  have hdec : make_decision engRT true (1 - 2/5) "WANTED"
      = GateDecision.UNKNOWN := by
    rw [make_decision]
    simp only [hWW, engRT]
    norm_num
  have hgate : (recognizeTrack engRT trkConfSt gateClosed0 1 [hitWanted] 3 10).gate
      = (open_gate gateClosed0 (some GateDecision.UNKNOWN) 10).1 := by
    rw [recognizeTrack]
    simp [hitWanted, hdec]
  have hdecout : (recognizeTrack engRT trkConfSt gateClosed0 1 [hitWanted] 3 10).decision
      = some GateDecision.UNKNOWN := by
    rw [recognizeTrack]
    simp [hitWanted, hdec]
  refine ⟨by simpa [hitWanted] using hdec, hdecout, rfl, rfl, rfl, ?_, ?_, ?_⟩
  · rw [hgate]
    simp [open_gate, setRelay, gateClosed0, openGateStats]
  · rw [hgate]
    simp [open_gate, setRelay, gateClosed0, openGateStats]
  · rw [hgate]
    simp [open_gate, setRelay, gateClosed0, openGateStats]
    norm_num

/-! ## C2 — sync round fails to persist and to record the version -/

/-- A face database at sync version 1 whose disk image also records
version 1. -/
def dbV1 : FaceDB := ⟨2, [], [], 0, [], 1, ⟨[], [], 0, [], 1⟩⟩

/-- One upsert record (embedding `[3,4]`, norm 5). -/
def upsertF1 : UpsertItem := ⟨"F1", some "P1", "Ann", "AUTHORIZED", [3, 4], 5⟩

/-- A sync response carrying one upsert and the new version 2. -/
def respV2 : SyncResponse := ⟨2, [upsertF1], []⟩

/-- Refutation of C2 on the code: a sync round with a non-empty
`upserts` list applies the upsert in memory, but the subsequent
`face_db.save()` call raises `AttributeError` (no such method), the
handler marks the round failed, and `set_version` is never reached:
nothing is persisted to disk and `get_version()` still returns the old
version, not the response's. -/
theorem sync_round_leaves_version_unpersisted :
    (syncFaces dbV1 respV2).last_sync_success = false
    ∧ (syncFaces dbV1 respV2).sync_error.isSome = true
    ∧ getVersion (syncFaces dbV1 respV2).db = 1
    ∧ ¬ (syncFaces dbV1 respV2).db.version = respV2.version
    ∧ (syncFaces dbV1 respV2).db.disk = dbV1.disk
    ∧ (syncFaces dbV1 respV2).db.face_id_to_idx = [("F1", 0)]
    ∧ (syncFaces dbV1 respV2).db.metadata
        = [(0, ⟨"F1", some "P1", "Ann", "AUTHORIZED"⟩)] := by
  refine ⟨?_, ?_, ?_, ?_, ?_, ?_, ?_⟩ <;>
    · norm_num [syncFaces, dbV1, respV2, upsertF1, addFace, alookup, ainsert,
        getVersion, List.find?]
